import Mathlib

/-!
Shallow embedding of the `color_pccs` application core
(`src/App.jsx` and `src/SeasonalColorAnalysis.jsx`).

The embedding covers:
* the static PCCS catalogs `TONES` and `HUES`;
* `generateColor` and `generateFullDeck` (ColorSpace / DeckEngine);
* the quiz state manipulated by `handleGuess` / `nextCard` (QuizSession),
  including the sliding 5-element history window;
* the multiple-choice option construction in the `Flashcard` component;
* the two `getSettings` resolvers (one per source file) and the
  missing-credential guard of `callOpenAI`.

JavaScript idioms are translated as follows: the `hsl(h, s%, l%)` CSS
template string is represented by its three numeric components; the JS
truthiness test `x || y` on possibly-`undefined` strings becomes `jsOr`
on `Option String` (where `""` and `undefined` are both falsy); the
`localStorage` blob handed to `JSON.parse` becomes the four-way
`StoredBlob` datum (absent / empty string / non-JSON string on which
`JSON.parse` throws / well-formed record); a thrown exception becomes
`Except.error`; `Array.prototype.sort` under a random comparator is
modelled by an arbitrary permutation of the array (a hypothesis in the
theorems that touch it).
-/

/-- A PCCS tone record, mirroring the entries of the `TONES` array:
`{ id, name, label, s, l, desc }` with saturation `s` and lightness `l`
in percent. -/
structure Tone where
  id : String
  name : String
  label : String
  s : Nat
  l : Nat
  desc : String
  deriving DecidableEq, Repr

/-- A PCCS hue record, mirroring the entries of the `HUES` array:
`{ id, name, h }` with hue angle `h` in degrees. -/
structure Hue where
  id : Nat
  name : String
  h : Nat
  deriving DecidableEq, Repr

/-- The numeric content of the CSS string `hsl(${h}, ${s}%, ${l}%)`
produced by `generateColor`. -/
structure Hsl where
  h : Nat
  s : Nat
  l : Nat
  deriving DecidableEq, Repr

/-- A deck entry, mirroring the object literal returned by
`generateColor`: `{ id, toneId, toneName, toneLabel, hueName, css, desc }`. -/
structure ColorEntry where
  id : String
  toneId : String
  toneName : String
  toneLabel : String
  hueName : String
  css : Hsl
  desc : String
  deriving DecidableEq, Repr

/-- The static twelve-element tone catalog `TONES` from `App.jsx`. -/
def TONES : List Tone :=
  [ ⟨"v",   "Vivid",         "01 Vivid",         100, 50, "純粹、飽和、鮮豔"⟩,
    ⟨"b",   "Bright",        "02 Bright",        85,  65, "愉悅、清晰"⟩,
    ⟨"s",   "Strong",        "03 Strong",        70,  45, "動感、強烈"⟩,
    ⟨"dp",  "Deep",          "04 Deep",          80,  30, "傳統、深奧"⟩,
    ⟨"lt",  "Light",         "05 Light",         55,  75, "舒適、清新"⟩,
    ⟨"sf",  "Soft",          "06 Soft",          40,  60, "溫柔、自然"⟩,
    ⟨"d",   "Dull",          "07 Dull",          40,  45, "穩重、樸實"⟩,
    ⟨"dk",  "Dark",          "08 Dark",          50,  25, "成熟、穩健"⟩,
    ⟨"p",   "Pale",          "09 Pale",          25,  88, "精緻、輕盈"⟩,
    ⟨"ltg", "Light Grayish", "10 Light Grayish", 15,  70, "平靜、柔和"⟩,
    ⟨"g",   "Grayish",       "11 Grayish",       15,  45, "寧靜、別緻"⟩,
    ⟨"dkg", "Dark Grayish",  "12 Dark Grayish",  10,  25, "厚重、堅實"⟩ ]

/-- The static twelve-element hue catalog `HUES` from `App.jsx`. -/
def HUES : List Hue :=
  [ ⟨2,  "紅色 (Red)",          355⟩,
    ⟨4,  "紅橙色 (Red-Orange)", 15⟩,
    ⟨6,  "橙色 (Orange)",       35⟩,
    ⟨8,  "黃色 (Yellow)",       50⟩,
    ⟨10, "黃綠色 (Yellow-Green)", 75⟩,
    ⟨12, "綠色 (Green)",        120⟩,
    ⟨14, "藍綠色 (Blue-Green)", 160⟩,
    ⟨16, "綠藍色 (Green-Blue)", 180⟩,
    ⟨18, "藍色 (Blue)",         210⟩,
    ⟨20, "藍紫色 (Violet)",     260⟩,
    ⟨22, "紫色 (Purple)",       290⟩,
    ⟨24, "紅紫色 (Red-Purple)", 320⟩ ]

/-- `generateColor(tone, hue)` from `App.jsx`: the rendered lightness is
`tone.l + 5` when `hue.h > 30 && hue.h < 60 && tone.l < 50`, otherwise
`tone.l`; the result carries the composite id `` `${tone.id}-${hue.id}` ``
and the CSS color `hsl(hue.h, tone.s%, adjustedL%)`. -/
def generateColor (tone : Tone) (hue : Hue) : ColorEntry :=
  let adjustedL := if 30 < hue.h ∧ hue.h < 60 ∧ tone.l < 50 then tone.l + 5 else tone.l
  { id := tone.id ++ "-" ++ toString hue.id
    toneId := tone.id
    toneName := tone.name
    toneLabel := tone.label
    hueName := hue.name
    css := { h := hue.h, s := tone.s, l := adjustedL }
    desc := tone.desc }

/-- `generateFullDeck()` from `App.jsx`: for each tone (outer `forEach`,
catalog order) and each hue (inner `forEach`, catalog order) push
`generateColor(tone, hue)`. -/
def generateFullDeck : List ColorEntry :=
  TONES.flatMap (fun tone => HUES.map (fun hue => generateColor tone hue))

/-- Placeholder entry used to express JS array indexing `deck[i]`
(always performed in range by the app) via `List.getD`. -/
def defaultEntry : ColorEntry :=
  { id := "", toneId := "", toneName := "", toneLabel := "", hueName := ""
    css := { h := 0, s := 0, l := 0 }, desc := "" }

/-- Placeholder tone for `List.getD` indexing into `TONES`. -/
def defaultTone : Tone := ⟨"", "", "", 0, 0, ""⟩

/-- Placeholder hue for `List.getD` indexing into `HUES`. -/
def defaultHue : Hue := ⟨0, "", 0⟩

/-- The React state of the `QuizView` component: the `useState` fields
`deck`, `currentCardIndex`, `showAnswer`, `selectedOption`, `score`,
`streak`, `bestStreak`, `history`.  `showAnswer = false` is the
spec's `AwaitingAnswer` state, `showAnswer = true` is `ShowingResult`. -/
structure QuizState where
  deck : List ColorEntry
  currentCardIndex : Nat
  showAnswer : Bool
  selectedOption : Option String
  score : Nat
  streak : Nat
  bestStreak : Nat
  history : List Bool
  deriving DecidableEq, Repr

/-- The initial `QuizView` state on a given deck: index 0, answer hidden,
all counters zero, empty history (the `useState` initialisers). -/
def initialState (deck : List ColorEntry) : QuizState :=
  { deck := deck, currentCardIndex := 0, showAnswer := false
    selectedOption := none, score := 0, streak := 0, bestStreak := 0
    history := [] }

/-- The JS expression `deck[currentCardIndex]` (always evaluated in
range by the app; `List.getD` renders the indexing). -/
def currentCard (s : QuizState) : ColorEntry :=
  s.deck.getD s.currentCardIndex defaultEntry

/-- `handleGuess(toneId)` from `App.jsx`.  Reads
`currentCard = deck[currentCardIndex]`, sets `selectedOption` and
`showAnswer`; if `toneId === currentCard.toneId` it adds 10 to the
score, increments the streak, raises `bestStreak` to
`Math.max(bestStreak, newStreak)` and appends `true` to
`history.slice(-4)`; otherwise it resets the streak to 0 and appends
`false` to `history.slice(-4)`.  JS `history.slice(-4)` (the last four
elements, or all of them when fewer) is `history.drop (history.length - 4)`. -/
def handleGuess (toneId : String) (s : QuizState) : QuizState :=
  let isCorrect := toneId == (currentCard s).toneId
  if isCorrect then
    { s with
      selectedOption := some toneId
      showAnswer := true
      score := s.score + 10
      streak := s.streak + 1
      bestStreak := max s.bestStreak (s.streak + 1)
      history := s.history.drop (s.history.length - 4) ++ [true] }
  else
    { s with
      selectedOption := some toneId
      showAnswer := true
      streak := 0
      history := s.history.drop (s.history.length - 4) ++ [false] }

/-- `nextCard()` from `App.jsx`: hides the answer, clears the selection,
and advances the index by 1 modulo the deck length. -/
def nextCard (s : QuizState) : QuizState :=
  { s with
    showAnswer := false
    selectedOption := none
    currentCardIndex := (s.currentCardIndex + 1) % s.deck.length }

/-- One full quiz round: submit a guess, then press the next-card
button (the only way the UI returns to `AwaitingAnswer`). -/
def submitAndNext (s : QuizState) (toneId : String) : QuizState :=
  nextCard (handleGuess toneId s)

/-- Play a whole sequence of guesses from a state, one round each. -/
def playSession (s : QuizState) : List String → QuizState
  | [] => s
  | g :: gs => playSession (submitAndNext s g) gs

/-- The chronological list of boolean outcomes (`toneId === currentCard.toneId`)
produced by a sequence of guesses played from a state. -/
def sessionOutcomes (s : QuizState) : List String → List Bool
  | [] => []
  | g :: gs =>
      (g == (currentCard s).toneId) :: sessionOutcomes (submitAndNext s g) gs

/-- The option list built in the `Flashcard` component before the final
shuffle: the first three entries of the shuffled distractor list
(`TONES.filter(t => t.id !== card.toneId).sort(random).slice(0, 3)`)
followed by `TONES.find(t => t.id === card.toneId)`.  JS `find` may
return `undefined`, hence `Option Tone` entries. -/
def optionPool (toneId : String) (shuffledDistractors : List Tone) : List (Option Tone) :=
  (shuffledDistractors.take 3).map some ++ [TONES.find? (fun t => t.id == toneId)]

/-- The guess buttons actually mounted by `Flashcard`: the options grid
sits under the `{!showAnswer && ...}` guard, so nothing is rendered —
and no `onGuess` handler exists — while the answer is showing.
`shuffledDistractors` stands for the random-comparator sort outcome. -/
def renderedGuessButtons (s : QuizState) (shuffledDistractors : List Tone) :
    List (Option Tone) :=
  if s.showAnswer then []
  else optionPool (currentCard s).toneId shuffledDistractors

/-- The build-time configuration: the Vite variables `VITE_API_KEY`,
`VITE_BASE_URL`, `VITE_MODEL`, each a string or `undefined`. -/
structure EnvConfig where
  apiKey : Option String
  baseUrl : Option String
  model : Option String
  deriving DecidableEq, Repr

/-- The fields of a parsed `pccs_app_settings` JSON record; any field
may be missing (`undefined` on access). -/
structure SavedSettings where
  baseUrl : Option String
  apiKey : Option String
  model : Option String
  deriving DecidableEq, Repr

/-- The resolved settings record returned by `getSettings`. -/
structure Settings where
  baseUrl : String
  apiKey : String
  model : String
  deriving DecidableEq, Repr

/-- The `localStorage.getItem('pccs_app_settings')` snapshot as seen by
`getSettings`: `absent` is a `null` result, `empty` the empty string
(falsy, so skipped like `null`), `malformed` a non-empty string that is
not valid JSON (on which `JSON.parse` throws), and `valid p` a
non-empty string parsing to the record `p`. -/
inductive StoredBlob where
  | absent : StoredBlob
  | empty : StoredBlob
  | malformed : StoredBlob
  | valid : SavedSettings → StoredBlob
  deriving DecidableEq, Repr

/-- The JS expression `x || y` for a string-or-undefined `x`: both
`undefined` and the empty string are falsy. -/
def jsOr (x : Option String) (y : String) : String :=
  match x with
  | some s => if s = "" then y else s
  | none => y

/-- `getSettings` from `App.jsx`: environment defaults
(`VITE_BASE_URL || 'https://models.inference.ai.azure.com'`,
`VITE_MODEL || 'gpt-4o'`, `VITE_API_KEY || ''`), then per-field
`parsed.field || envField` when a saved record exists.  An uncaught
`JSON.parse` exception on a malformed blob is `Except.error`. -/
def getSettings (env : EnvConfig) (blob : StoredBlob) : Except String Settings :=
  let envApiKey := jsOr env.apiKey ""
  let envBaseUrl := jsOr env.baseUrl "https://models.inference.ai.azure.com"
  let envModel := jsOr env.model "gpt-4o"
  match blob with
  | .malformed => .error "SyntaxError: JSON.parse: unexpected character"
  | .valid parsed =>
      .ok { baseUrl := jsOr parsed.baseUrl envBaseUrl
            apiKey := jsOr parsed.apiKey envApiKey
            model := jsOr parsed.model envModel }
  | _ => .ok { baseUrl := envBaseUrl, apiKey := envApiKey, model := envModel }

/-- `getSettings` from `SeasonalColorAnalysis.jsx`: identical resolution
logic but different hard-coded fallbacks
(`https://generativelanguage.googleapis.com/v1beta/openai/` and
`gemini-1.5-flash`). -/
def getSettingsSeasonal (env : EnvConfig) (blob : StoredBlob) : Except String Settings :=
  let envApiKey := jsOr env.apiKey ""
  let envBaseUrl := jsOr env.baseUrl "https://generativelanguage.googleapis.com/v1beta/openai/"
  let envModel := jsOr env.model "gemini-1.5-flash"
  match blob with
  | .malformed => .error "SyntaxError: JSON.parse: unexpected character"
  | .valid parsed =>
      .ok { baseUrl := jsOr parsed.baseUrl envBaseUrl
            apiKey := jsOr parsed.apiKey envApiKey
            model := jsOr parsed.model envModel }
  | _ => .ok { baseUrl := envBaseUrl, apiKey := envApiKey, model := envModel }

/-- Spec-worded per-field resolution: the persisted value when present
and non-blank, else the build-time value when present and non-blank,
else the hard-coded fallback. -/
def resolveField (persisted buildTime : Option String) (fallback : String) : String :=
  match persisted with
  | some s => if s ≠ "" then s else
      match buildTime with
      | some b => if b ≠ "" then b else fallback
      | none => fallback
  | none =>
      match buildTime with
      | some b => if b ≠ "" then b else fallback
      | none => fallback

/-- `true` exactly when an optional string field is present and non-blank. -/
def presentNonBlank : Option String → Bool
  | some s => s ≠ ""
  | none => false

/-- The user-facing message returned by `callOpenAI` when no API key is
resolved. -/
def missingKeyMessage : String :=
  "錯誤：未偵測到 API Key。請設定環境變數 (VITE_API_KEY) 或在設定選單中手動輸入。"

/-- What `callOpenAI` does after resolving its settings: either return
a message string immediately with no network activity, or issue one
`fetch` POST (the function contains a single `fetch` and no retry
loop). -/
inductive AdvisoryAction where
  | noRequest : String → AdvisoryAction
  | fetchRequest (url : String) (model : String)
      (systemMessage : String) (userMessage : String) : AdvisoryAction
  deriving DecidableEq, Repr

/-- `callOpenAI(prompt, systemInstruction)` from `App.jsx`, up to the
network boundary: resolve settings via `getSettings()`; if the API key
is empty (`!apiKey`) return `missingKeyMessage` without fetching;
otherwise strip one trailing slash from the base URL, append
`/chat/completions` unless the URL already contains it, and issue the
single POST request. -/
def callOpenAI (env : EnvConfig) (blob : StoredBlob)
    (prompt : String) (systemInstruction : String) : Except String AdvisoryAction :=
  match getSettings env blob with
  | .error e => .error e
  | .ok st =>
      if st.apiKey = "" then
        .ok (.noRequest missingKeyMessage)
      else
        let cleanBaseUrl := if st.baseUrl.endsWith "/" then st.baseUrl.dropRight 1 else st.baseUrl
        let url := if (cleanBaseUrl.splitOn "chat/completions").length ≠ 1
          then cleanBaseUrl else cleanBaseUrl ++ "/chat/completions"
        .ok (.fetchRequest url st.model systemInstruction prompt)

/-! ## Helper lemmas -/

/-- Keeping the last five elements twice is keeping them once: trimming
to a 5-suffix, appending, and trimming again equals trimming the full
concatenation. -/
theorem drop5_drop5_append (l m : List Bool) :
    (l.drop (l.length - 5) ++ m).drop ((l.drop (l.length - 5) ++ m).length - 5) =
      (l ++ m).drop ((l ++ m).length - 5) := by
  have h1 : l.length - 5 ≤ l.length := Nat.sub_le _ _
  have e1 : l.drop (l.length - 5) ++ m = (l ++ m).drop (l.length - 5) :=
    (List.drop_append_of_le_length h1).symm
  rw [e1, List.drop_drop]
  congr 1
  simp only [List.length_drop, List.length_append]
  omega

/-- One `handleGuess` history update (`[...history.slice(-4), b]`) keeps
the last five of the extended outcome list. -/
theorem histStep_eq (h : List Bool) (b : Bool) :
    h.drop (h.length - 4) ++ [b] = (h ++ [b]).drop ((h ++ [b]).length - 5) := by
  have h1 : h.length - 4 ≤ h.length := Nat.sub_le _ _
  have e : (h ++ [b]).length - 5 = h.length - 4 := by
    simp only [List.length_append, List.length_cons, List.length_nil]
    omega
  rw [e, List.drop_append_of_le_length h1]

/-- Both branches of `handleGuess` append the correctness boolean to the
trimmed history. -/
theorem handleGuess_history (toneId : String) (s : QuizState) :
    (handleGuess toneId s).history =
      s.history.drop (s.history.length - 4) ++ [toneId == (currentCard s).toneId] := by
  by_cases h : toneId = (currentCard s).toneId
  · simp [handleGuess, h]
  · simp [handleGuess, h]

/-- `nextCard` leaves the history unchanged, so a full round performs
exactly one history update. -/
theorem submitAndNext_history (toneId : String) (s : QuizState) :
    (submitAndNext s toneId).history =
      s.history.drop (s.history.length - 4) ++ [toneId == (currentCard s).toneId] := by
  unfold submitAndNext nextCard
  simpa using handleGuess_history toneId s

/-- A sequence of guesses produces one boolean outcome per guess. -/
theorem sessionOutcomes_length (gs : List String) : ∀ s : QuizState,
    (sessionOutcomes s gs).length = gs.length := by
  induction gs with
  | nil => intro s; rfl
  | cons g gs ih => intro s; simp [sessionOutcomes, ih]

/-- Invariant behind the history window: from any state whose history
already fits in the window, playing any guesses leaves exactly the last
five of (old history ++ new outcomes). -/
theorem playSession_history_aux (gs : List String) : ∀ s : QuizState,
    s.history.length ≤ 5 →
    (playSession s gs).history =
      (s.history ++ sessionOutcomes s gs).drop
        ((s.history ++ sessionOutcomes s gs).length - 5) := by
  induction gs with
  | nil =>
      intro s hs
      simp [playSession, sessionOutcomes, Nat.sub_eq_zero_of_le hs]
  | cons g gs ih =>
      intro s hs
      have hb : (submitAndNext s g).history =
          (s.history ++ [g == (currentCard s).toneId]).drop
            ((s.history ++ [g == (currentCard s).toneId]).length - 5) := by
        rw [submitAndNext_history]
        exact histStep_eq _ _
      have hlen : (submitAndNext s g).history.length ≤ 5 := by
        rw [hb]
        simp only [List.length_drop, List.length_append, List.length_cons, List.length_nil]
        omega
      have hrec := ih (submitAndNext s g) hlen
      rw [playSession, hrec, hb, sessionOutcomes]
      rw [drop5_drop5_append]
      simp [List.append_assoc]

/-! ## Claim theorems -/

/-- C1: for every tone and hue in the twelve-element catalogs,
`generateColor` yields the CSS color `hsl(hue.h, tone.s%, L%)` where the
rendered lightness `L` is `tone.l + 5` exactly when `30 < hue.h < 60`
and `tone.l < 50`, and `tone.l` otherwise.  The tone record itself is
immutable in the embedding, and the right-hand side is expressed with
the uncorrected `t.l`, so the catalog lightness is preserved. -/
theorem generateColor_yellow_band (t : Tone) (ht : t ∈ TONES) (h : Hue) (hh : h ∈ HUES) :
    (generateColor t h).css.h = h.h ∧
    (generateColor t h).css.s = t.s ∧
    (generateColor t h).css.l =
      (if 30 < h.h ∧ h.h < 60 ∧ t.l < 50 then t.l + 5 else t.l) := by
  revert t h
  decide

/-- Witness for C1 at the Deep tone (lightness 30) and the Orange hue
(angle 35): the yellow-band correction fires and renders lightness 35. -/
theorem generateColor_yellow_band_witness :
    TONES.getD 3 defaultTone ∈ TONES ∧ HUES.getD 2 defaultHue ∈ HUES ∧
    ((generateColor (TONES.getD 3 defaultTone) (HUES.getD 2 defaultHue)).css.h =
        (HUES.getD 2 defaultHue).h ∧
      (generateColor (TONES.getD 3 defaultTone) (HUES.getD 2 defaultHue)).css.s =
        (TONES.getD 3 defaultTone).s ∧
      (generateColor (TONES.getD 3 defaultTone) (HUES.getD 2 defaultHue)).css.l =
        (if 30 < (HUES.getD 2 defaultHue).h ∧ (HUES.getD 2 defaultHue).h < 60 ∧
            (TONES.getD 3 defaultTone).l < 50
          then (TONES.getD 3 defaultTone).l + 5 else (TONES.getD 3 defaultTone).l)) :=
  ⟨by decide, by decide,
    generateColor_yellow_band _ (by decide) _ (by decide)⟩

set_option maxRecDepth 100000 in
/-- C2: `generateFullDeck` has exactly 144 entries; the composite ids
`toneId-hueId` are pairwise distinct (no duplicate pair); every catalog
pair occurs (no omission); and entry `12*i + j` is
`generateColor TONES[i] HUES[j]` — outer iteration over tones, inner
over hues, in catalog order, each entry the `generateColor` of its pair. -/
theorem generateFullDeck_complete :
    generateFullDeck.length = 144 ∧
    (generateFullDeck.map (fun c => c.id)).Nodup ∧
    (∀ t ∈ TONES, ∀ h ∈ HUES, generateColor t h ∈ generateFullDeck) ∧
    (∀ i, i < 12 → ∀ j, j < 12 →
      generateFullDeck.getD (12 * i + j) defaultEntry =
        generateColor (TONES.getD i defaultTone) (HUES.getD j defaultHue)) := by
  refine ⟨by decide, by decide, ?_, by decide⟩
  intro t ht h hh
  exact List.mem_flatMap.mpr ⟨t, ht, List.mem_map_of_mem _ hh⟩

/-- Witness for C2: the Vivid/Red pair is a member, and the first deck
entry is `generateColor TONES[0] HUES[0]`. -/
theorem generateFullDeck_complete_witness :
    generateColor (TONES.getD 0 defaultTone) (HUES.getD 0 defaultHue) ∈ generateFullDeck ∧
    generateFullDeck.getD 0 defaultEntry =
      generateColor (TONES.getD 0 defaultTone) (HUES.getD 0 defaultHue) :=
  ⟨generateFullDeck_complete.2.2.1 _ (by decide) _ (by decide),
    by
      have := generateFullDeck_complete.2.2.2 0 (by decide) 0 (by decide)
      simpa using this⟩

/-- C3: submitting an answer from `AwaitingAnswer` always moves to
`ShowingResult`; on a correct guess the score grows by exactly 10, the
streak by 1 and the best streak becomes `max` of itself and the new
streak; on an incorrect guess score and best streak are untouched and
the streak resets to 0; in both cases the correctness boolean is
appended to the (trimmed) history. -/
theorem handleGuess_scoring (s : QuizState) (toneId : String)
    (_hAwait : s.showAnswer = false) :
    (handleGuess toneId s).showAnswer = true ∧
    (toneId = (currentCard s).toneId →
      (handleGuess toneId s).score = s.score + 10 ∧
      (handleGuess toneId s).streak = s.streak + 1 ∧
      (handleGuess toneId s).bestStreak = max s.bestStreak (s.streak + 1)) ∧
    (toneId ≠ (currentCard s).toneId →
      (handleGuess toneId s).score = s.score ∧
      (handleGuess toneId s).streak = 0 ∧
      (handleGuess toneId s).bestStreak = s.bestStreak) ∧
    (handleGuess toneId s).history =
      s.history.drop (s.history.length - 4) ++ [toneId == (currentCard s).toneId] := by
  refine ⟨?_, ?_, ?_, handleGuess_history toneId s⟩
  · by_cases h : toneId = (currentCard s).toneId <;> simp [handleGuess, h]
  · intro h; simp [handleGuess, h]
  · intro h; simp [handleGuess, h]

/-- Witness for C3: on the fresh full-deck session (card 0 is the
Vivid/Red entry, tone id `v`), guessing `v` scores 10 and starts a
streak of 1. -/
theorem handleGuess_scoring_witness :
    (initialState generateFullDeck).showAnswer = false ∧
    ((handleGuess "v" (initialState generateFullDeck)).showAnswer = true ∧
      ("v" = (currentCard (initialState generateFullDeck)).toneId →
        (handleGuess "v" (initialState generateFullDeck)).score =
          (initialState generateFullDeck).score + 10 ∧
        (handleGuess "v" (initialState generateFullDeck)).streak =
          (initialState generateFullDeck).streak + 1 ∧
        (handleGuess "v" (initialState generateFullDeck)).bestStreak =
          max (initialState generateFullDeck).bestStreak
            ((initialState generateFullDeck).streak + 1)) ∧
      ("v" ≠ (currentCard (initialState generateFullDeck)).toneId →
        (handleGuess "v" (initialState generateFullDeck)).score =
          (initialState generateFullDeck).score ∧
        (handleGuess "v" (initialState generateFullDeck)).streak = 0 ∧
        (handleGuess "v" (initialState generateFullDeck)).bestStreak =
          (initialState generateFullDeck).bestStreak) ∧
      (handleGuess "v" (initialState generateFullDeck)).history =
        (initialState generateFullDeck).history.drop
          ((initialState generateFullDeck).history.length - 4) ++
          ["v" == (currentCard (initialState generateFullDeck)).toneId]) :=
  ⟨rfl, handleGuess_scoring (initialState generateFullDeck) "v" rfl⟩

/-- C7: starting from a fresh session, after any sequence of `n`
submitted answers the history buffer is exactly the last `min n 5`
boolean outcomes in chronological order, so its length is `min n 5`
and the oldest entries are dropped first once `n` exceeds 5. -/
theorem history_sliding_window (deck : List ColorEntry) (gs : List String) :
    (playSession (initialState deck) gs).history =
      (sessionOutcomes (initialState deck) gs).drop (gs.length - 5) ∧
    (playSession (initialState deck) gs).history.length = min gs.length 5 := by
  have h0 : (initialState deck).history.length ≤ 5 := by simp [initialState]
  have hmain := playSession_history_aux gs (initialState deck) h0
  have hnil : (initialState deck).history = [] := rfl
  rw [hnil, List.nil_append] at hmain
  have hout := sessionOutcomes_length gs (initialState deck)
  constructor
  · rw [hmain, hout]
  · rw [hmain, List.length_drop, hout]
    omega

/-- Core invariant of the `Flashcard` option construction, for an
arbitrary distractor source `A`: taking three entries of a permutation
of `A` (all of whose members avoid `t0.id`) and appending `some t0`,
then permuting again, yields 4 distinct catalog options containing the
correct tone exactly once. -/
theorem options_aux (t0 : Tone) (A : List Tone) (shuffled : List Tone)
    (final : List (Option Tone))
    (hNodupA : A.Nodup) (hAlen : 3 ≤ A.length)
    (hAid : ∀ x ∈ A, x.id ≠ t0.id)
    (hAT : ∀ x ∈ A, x ∈ TONES) (ht0 : t0 ∈ TONES)
    (h1 : shuffled.Perm A)
    (h2 : final.Perm ((shuffled.take 3).map some ++ [some t0])) :
    final.length = 4 ∧ final.Nodup ∧
    final.countP (fun o => (o.map Tone.id == some t0.id)) = 1 ∧
    (∀ o ∈ final, ∃ t ∈ TONES, o = some t) := by
  have hShufNodup : shuffled.Nodup := (h1.nodup_iff).mpr hNodupA
  have hShufLen : shuffled.length = A.length := h1.length_eq
  have hTakeNodup : (shuffled.take 3).Nodup := hShufNodup.sublist (List.take_sublist 3 shuffled)
  have hTakeMem : ∀ x ∈ shuffled.take 3, x ∈ A := by
    intro x hx
    exact h1.mem_iff.mp (List.mem_of_mem_take hx)
  have hTakeLen : (shuffled.take 3).length = 3 := by
    rw [List.length_take]
    omega
  have hMapNodup : ((shuffled.take 3).map some).Nodup :=
    hTakeNodup.map (fun a b hab => Option.some.inj hab)
  have hNotMem : some t0 ∉ (shuffled.take 3).map some := by
    intro hmem
    rcases List.mem_map.mp hmem with ⟨x, hx, hxeq⟩
    exact hAid x (hTakeMem x hx) (congrArg Tone.id (Option.some.inj hxeq))
  have hPoolNodup : ((shuffled.take 3).map some ++ [some t0]).Nodup := by
    rw [List.nodup_append]
    refine ⟨hMapNodup, List.nodup_singleton _, ?_⟩
    intro a ha hb
    rcases List.mem_singleton.mp hb with rfl
    exact hNotMem ha
  refine ⟨?_, ?_, ?_, ?_⟩
  · rw [h2.length_eq, List.length_append, List.length_map, hTakeLen]
    rfl
  · exact (h2.nodup_iff).mpr hPoolNodup
  · rw [h2.countP_eq]
    rw [List.countP_append]
    have hzero : ((shuffled.take 3).map some).countP
        (fun o => (o.map Tone.id == some t0.id)) = 0 := by
      rw [List.countP_eq_zero]
      intro o ho
      rcases List.mem_map.mp ho with ⟨x, hx, rfl⟩
      have hne : x.id ≠ t0.id := hAid x (hTakeMem x hx)
      simp [hne]
    rw [hzero]
    simp [List.countP_cons, List.countP_nil]
  · intro o ho
    rcases (h2.mem_iff).mp ho with hmem
    rcases List.mem_append.mp hmem with hL | hR
    · rcases List.mem_map.mp hL with ⟨x, hx, rfl⟩
      exact ⟨x, hAT x (hTakeMem x hx), rfl⟩
    · rcases List.mem_singleton.mp hR with rfl
      exact ⟨t0, ht0, rfl⟩

/-- C4: for every card tone id from the catalog and every outcome of the
two random-comparator sorts (each modelled as an arbitrary permutation,
which is all `Array.prototype.sort` guarantees under an inconsistent
comparator), the `Flashcard` option list has exactly 4 pairwise-distinct
entries, each a catalog tone, exactly one of which carries the card's
tone id. -/
theorem flashcard_options_invariant (toneId : String) (shuffled : List Tone)
    (final : List (Option Tone))
    (h1 : shuffled.Perm (TONES.filter (fun t => t.id ≠ toneId)))
    (h2 : final.Perm (optionPool toneId shuffled))
    (hMem : toneId ∈ TONES.map Tone.id) :
    final.length = 4 ∧ final.Nodup ∧
    final.countP (fun o => (o.map Tone.id == some toneId)) = 1 ∧
    (∀ o ∈ final, ∃ t ∈ TONES, o = some t) := by
  have hMem2 : toneId ∈ ["v", "b", "s", "dp", "lt", "sf", "d", "dk", "p", "ltg", "g", "dkg"] := by
    simpa [TONES] using hMem
  fin_cases hMem2
  · have hfind : TONES.find? (fun t => t.id == "v") =
        some ⟨"v", "Vivid", "01 Vivid", 100, 50, "純粹、飽和、鮮豔"⟩ := by rfl
    simp only [optionPool] at h2
    rw [hfind] at h2
    exact options_aux _ _ shuffled final (by decide) (by decide) (by decide)
      (by decide) (by decide) h1 h2
  · have hfind : TONES.find? (fun t => t.id == "b") =
        some ⟨"b", "Bright", "02 Bright", 85, 65, "愉悅、清晰"⟩ := by rfl
    simp only [optionPool] at h2
    rw [hfind] at h2
    exact options_aux _ _ shuffled final (by decide) (by decide) (by decide)
      (by decide) (by decide) h1 h2
  · have hfind : TONES.find? (fun t => t.id == "s") =
        some ⟨"s", "Strong", "03 Strong", 70, 45, "動感、強烈"⟩ := by rfl
    simp only [optionPool] at h2
    rw [hfind] at h2
    exact options_aux _ _ shuffled final (by decide) (by decide) (by decide)
      (by decide) (by decide) h1 h2
  · have hfind : TONES.find? (fun t => t.id == "dp") =
        some ⟨"dp", "Deep", "04 Deep", 80, 30, "傳統、深奧"⟩ := by rfl
    simp only [optionPool] at h2
    rw [hfind] at h2
    exact options_aux _ _ shuffled final (by decide) (by decide) (by decide)
      (by decide) (by decide) h1 h2
  · have hfind : TONES.find? (fun t => t.id == "lt") =
        some ⟨"lt", "Light", "05 Light", 55, 75, "舒適、清新"⟩ := by rfl
    simp only [optionPool] at h2
    rw [hfind] at h2
    exact options_aux _ _ shuffled final (by decide) (by decide) (by decide)
      (by decide) (by decide) h1 h2
  · have hfind : TONES.find? (fun t => t.id == "sf") =
        some ⟨"sf", "Soft", "06 Soft", 40, 60, "溫柔、自然"⟩ := by rfl
    simp only [optionPool] at h2
    rw [hfind] at h2
    exact options_aux _ _ shuffled final (by decide) (by decide) (by decide)
      (by decide) (by decide) h1 h2
  · have hfind : TONES.find? (fun t => t.id == "d") =
        some ⟨"d", "Dull", "07 Dull", 40, 45, "穩重、樸實"⟩ := by rfl
    simp only [optionPool] at h2
    rw [hfind] at h2
    exact options_aux _ _ shuffled final (by decide) (by decide) (by decide)
      (by decide) (by decide) h1 h2
  · have hfind : TONES.find? (fun t => t.id == "dk") =
        some ⟨"dk", "Dark", "08 Dark", 50, 25, "成熟、穩健"⟩ := by rfl
    simp only [optionPool] at h2
    rw [hfind] at h2
    exact options_aux _ _ shuffled final (by decide) (by decide) (by decide)
      (by decide) (by decide) h1 h2
  · have hfind : TONES.find? (fun t => t.id == "p") =
        some ⟨"p", "Pale", "09 Pale", 25, 88, "精緻、輕盈"⟩ := by rfl
    simp only [optionPool] at h2
    rw [hfind] at h2
    exact options_aux _ _ shuffled final (by decide) (by decide) (by decide)
      (by decide) (by decide) h1 h2
  · have hfind : TONES.find? (fun t => t.id == "ltg") =
        some ⟨"ltg", "Light Grayish", "10 Light Grayish", 15, 70, "平靜、柔和"⟩ := by rfl
    simp only [optionPool] at h2
    rw [hfind] at h2
    exact options_aux _ _ shuffled final (by decide) (by decide) (by decide)
      (by decide) (by decide) h1 h2
  · have hfind : TONES.find? (fun t => t.id == "g") =
        some ⟨"g", "Grayish", "11 Grayish", 15, 45, "寧靜、別緻"⟩ := by rfl
    simp only [optionPool] at h2
    rw [hfind] at h2
    exact options_aux _ _ shuffled final (by decide) (by decide) (by decide)
      (by decide) (by decide) h1 h2
  · have hfind : TONES.find? (fun t => t.id == "dkg") =
        some ⟨"dkg", "Dark Grayish", "12 Dark Grayish", 10, 25, "厚重、堅實"⟩ := by rfl
    simp only [optionPool] at h2
    rw [hfind] at h2
    exact options_aux _ _ shuffled final (by decide) (by decide) (by decide)
      (by decide) (by decide) h1 h2

/-- Witness for C4 at tone id `v` with both shuffles instantiated to the
identity permutation. -/
theorem flashcard_options_invariant_witness :
    ((TONES.filter (fun t => t.id ≠ "v")).Perm (TONES.filter (fun t => t.id ≠ "v")) ∧
      (optionPool "v" (TONES.filter (fun t => t.id ≠ "v"))).Perm
        (optionPool "v" (TONES.filter (fun t => t.id ≠ "v"))) ∧
      "v" ∈ TONES.map Tone.id) ∧
    ((optionPool "v" (TONES.filter (fun t => t.id ≠ "v"))).length = 4 ∧
      (optionPool "v" (TONES.filter (fun t => t.id ≠ "v"))).Nodup ∧
      (optionPool "v" (TONES.filter (fun t => t.id ≠ "v"))).countP
        (fun o => (o.map Tone.id == some "v")) = 1 ∧
      (∀ o ∈ optionPool "v" (TONES.filter (fun t => t.id ≠ "v")), ∃ t ∈ TONES, o = some t)) :=
  ⟨⟨List.Perm.refl _, List.Perm.refl _, by decide⟩,
    flashcard_options_invariant "v" _ _ (List.Perm.refl _) (List.Perm.refl _) (by decide)⟩

/-- The JS `||` chain over the three tiers coincides with the
spec-worded per-field precedence `resolveField`. -/
theorem jsOr_jsOr_eq_resolveField (p b : Option String) (fb : String) :
    jsOr p (jsOr b fb) = resolveField p b fb := by
  cases p with
  | none =>
      cases b with
      | none => rfl
      | some sb => simp only [jsOr, resolveField]; split_ifs <;> simp_all
  | some sp =>
      cases b with
      | none => simp only [jsOr, resolveField]; split_ifs <;> simp_all
      | some sb => simp only [jsOr, resolveField]; split_ifs <;> simp_all

/-- C5 (counterexample): `handleGuess` itself has no state guard — called
on a state already in `ShowingResult` (`showAnswer = true`) it changes
the state again (here the score moves from 0 to 10), so "score, streak,
best-streak, history, index and state tag all left unchanged by the
call" fails for the bare function. -/
theorem handleGuess_in_showingResult_changes_state :
    handleGuess "v"
      { deck := [generateColor (TONES.getD 0 defaultTone) (HUES.getD 0 defaultHue)]
        currentCardIndex := 0, showAnswer := true, selectedOption := some "v"
        score := 0, streak := 0, bestStreak := 0, history := [true] } ≠
      { deck := [generateColor (TONES.getD 0 defaultTone) (HUES.getD 0 defaultHue)]
        currentCardIndex := 0, showAnswer := true, selectedOption := some "v"
        score := 0, streak := 0, bestStreak := 0, history := [true] } := by decide

/-- C5 (amended): the protection is structural rather than a check
inside `handleGuess`: while the session is in `ShowingResult` the
`Flashcard` component mounts no option buttons (the `{!showAnswer &&}`
guard), so no guess can be submitted through the UI and the session
state stays uncorrupted; re-invoking `handleGuess` directly would
re-score (see the counterexample). -/
theorem showingResult_renders_no_options (s : QuizState) (shuffledDistractors : List Tone)
    (h : s.showAnswer = true) :
    renderedGuessButtons s shuffledDistractors = [] := by
  simp [renderedGuessButtons, h]

/-- Witness for the amended C5 at a concrete `ShowingResult` state. -/
theorem showingResult_renders_no_options_witness :
    (QuizState.showAnswer
      { deck := [generateColor (TONES.getD 0 defaultTone) (HUES.getD 0 defaultHue)],
        currentCardIndex := 0, showAnswer := true, selectedOption := some "v",
        score := 0, streak := 0, bestStreak := 0, history := [true] }) = true ∧
    renderedGuessButtons
      { deck := [generateColor (TONES.getD 0 defaultTone) (HUES.getD 0 defaultHue)],
        currentCardIndex := 0, showAnswer := true, selectedOption := some "v",
        score := 0, streak := 0, bestStreak := 0, history := [true] } [] = [] :=
  ⟨rfl, showingResult_renders_no_options _ [] rfl⟩

/-- C6: resolution is per-field, with a blank persisted string treated
as absent: every field of the resolved record equals `resolveField`
(persisted if present and non-blank, else build-time if present and
non-blank, else the hard-coded fallback); in particular a persisted
blank model falls back to the build-time `gpt-4o`, and a persisted
`gpt-4o-mini` wins regardless of the other tiers. -/
theorem getSettings_per_field (env : EnvConfig) (parsed : SavedSettings) :
    getSettings env (StoredBlob.valid parsed) = Except.ok
      { baseUrl := resolveField parsed.baseUrl env.baseUrl "https://models.inference.ai.azure.com"
        apiKey := resolveField parsed.apiKey env.apiKey ""
        model := resolveField parsed.model env.model "gpt-4o" } ∧
    (env.model = some "gpt-4o" → parsed.model = some "" →
      ∃ st, getSettings env (StoredBlob.valid parsed) = Except.ok st ∧ st.model = "gpt-4o") ∧
    (parsed.model = some "gpt-4o-mini" →
      ∃ st, getSettings env (StoredBlob.valid parsed) = Except.ok st ∧ st.model = "gpt-4o-mini") := by
  refine ⟨?_, ?_, ?_⟩
  · show Except.ok _ = _
    rw [jsOr_jsOr_eq_resolveField, jsOr_jsOr_eq_resolveField, jsOr_jsOr_eq_resolveField]
  · intro h1 h2
    exact ⟨_, rfl, by show jsOr _ _ = _; rw [h2, h1]; rfl⟩
  · intro h1
    exact ⟨_, rfl, by show jsOr _ _ = _; rw [h1]; rfl⟩

/-- Witness for C6: the two concrete scenarios of the claim. -/
theorem getSettings_per_field_witness :
    (∃ st, getSettings ⟨none, none, some "gpt-4o"⟩
        (StoredBlob.valid ⟨none, none, some ""⟩) = Except.ok st ∧ st.model = "gpt-4o") ∧
    (∃ st, getSettings ⟨none, none, none⟩
        (StoredBlob.valid ⟨none, none, some "gpt-4o-mini"⟩) = Except.ok st ∧
        st.model = "gpt-4o-mini") :=
  ⟨(getSettings_per_field ⟨none, none, some "gpt-4o"⟩ ⟨none, none, some ""⟩).2.1 rfl rfl,
    (getSettings_per_field ⟨none, none, none⟩ ⟨none, none, some "gpt-4o-mini"⟩).2.2 rfl⟩

/-- C8 (counterexample): `getSettings` is not total over malformed
snapshots — a non-empty stored blob that is not valid JSON makes the
unguarded `JSON.parse(saved)` throw, so the resolver fails instead of
returning a record. -/
theorem getSettings_malformed_blob_throws :
    getSettings ⟨none, none, none⟩ StoredBlob.malformed =
      Except.error "SyntaxError: JSON.parse: unexpected character" := by rfl

/-- C8 (amended): for every build-time configuration and every snapshot
other than a malformed blob (absent, empty string, or well-formed JSON)
`getSettings` returns a resolved record, and a field absent in all three
tiers — realisable only for the API key, whose fallback is the empty
string — resolves to `""`. -/
theorem getSettings_total_except_malformed (env : EnvConfig) (blob : StoredBlob)
    (hb : blob ≠ StoredBlob.malformed) :
    (getSettings env blob).isOk = true ∧
    (env.apiKey = none →
      (∀ p, blob = StoredBlob.valid p → p.apiKey = none) →
      ∃ st, getSettings env blob = Except.ok st ∧ st.apiKey = "") := by
  cases blob with
  | malformed => exact absurd rfl hb
  | absent =>
      refine ⟨rfl, fun h1 _ => ⟨_, rfl, ?_⟩⟩
      show jsOr env.apiKey "" = ""
      rw [h1]
      rfl
  | empty =>
      refine ⟨rfl, fun h1 _ => ⟨_, rfl, ?_⟩⟩
      show jsOr env.apiKey "" = ""
      rw [h1]
      rfl
  | valid p =>
      refine ⟨rfl, fun h1 h2 => ⟨_, rfl, ?_⟩⟩
      have hp := h2 p rfl
      show jsOr p.apiKey (jsOr env.apiKey "") = ""
      rw [hp, h1]
      rfl

/-- Witness for the amended C8: no build-time values and no stored blob
resolve to a record whose credential is the empty string. -/
theorem getSettings_total_except_malformed_witness :
    StoredBlob.absent ≠ StoredBlob.malformed ∧
    ((getSettings ⟨none, none, none⟩ StoredBlob.absent).isOk = true ∧
      ((⟨none, none, none⟩ : EnvConfig).apiKey = none →
        (∀ p, StoredBlob.absent = StoredBlob.valid p → p.apiKey = none) →
        ∃ st, getSettings ⟨none, none, none⟩ StoredBlob.absent = Except.ok st ∧
          st.apiKey = "")) :=
  ⟨by decide, getSettings_total_except_malformed ⟨none, none, none⟩ StoredBlob.absent (by decide)⟩

/-- C9: whenever settings resolution succeeds with an empty credential,
`callOpenAI` hits the `if (!apiKey)` guard: it returns the user-facing
missing-key message and issues no network request (the model of the
function distinguishes returning a message from issuing the single
`fetch`; there is no retry construct). -/
theorem callOpenAI_missing_key (env : EnvConfig) (blob : StoredBlob)
    (prompt systemInstruction : String) (st : Settings)
    (hres : getSettings env blob = Except.ok st) (hkey : st.apiKey = "") :
    callOpenAI env blob prompt systemInstruction =
      Except.ok (AdvisoryAction.noRequest missingKeyMessage) := by
  simp [callOpenAI, hres, hkey]

/-- Witness for C9: with no build-time key and no stored blob the
resolved credential is empty, and the call returns the message without
fetching. -/
theorem callOpenAI_missing_key_witness :
    getSettings ⟨none, none, none⟩ StoredBlob.absent =
      Except.ok { baseUrl := "https://models.inference.ai.azure.com", apiKey := "", model := "gpt-4o" } ∧
    ({ baseUrl := "https://models.inference.ai.azure.com", apiKey := "", model := "gpt-4o" } : Settings).apiKey = "" ∧
    callOpenAI ⟨none, none, none⟩ StoredBlob.absent "prompt" "system" =
      Except.ok (AdvisoryAction.noRequest missingKeyMessage) :=
  ⟨rfl, rfl, callOpenAI_missing_key ⟨none, none, none⟩ StoredBlob.absent "prompt" "system" _ rfl rfl⟩

/-- C10 (counterexample): the two `getSettings` functions are not
equivalent — with no build-time values and no persisted record the
`App.jsx` resolver falls back to the Azure endpoint and `gpt-4o` while
the `SeasonalColorAnalysis.jsx` resolver falls back to the Google
endpoint and `gemini-1.5-flash`. -/
theorem getSettings_fallbacks_differ :
    (getSettings ⟨none, none, none⟩ StoredBlob.absent).toOption ≠
      (getSettingsSeasonal ⟨none, none, none⟩ StoredBlob.absent).toOption := by decide

/-- C10 (amended): the two resolvers share the per-field resolution
logic (and the empty API-key fallback) but differ in their hard-coded
fallback base URL and model; they return identical records on every
persisted snapshot whenever the build-time base URL and model are
present and non-blank, i.e. whenever the differing fallbacks are not
reached. -/
theorem getSettings_agree_when_env_set (env : EnvConfig) (blob : StoredBlob)
    (hB : presentNonBlank env.baseUrl = true)
    (hM : presentNonBlank env.model = true) :
    getSettings env blob = getSettingsSeasonal env blob := by
  cases hEB : env.baseUrl with
  | none => rw [hEB] at hB; exact absurd hB (by simp [presentNonBlank])
  | some b =>
    cases hEM : env.model with
    | none => rw [hEM] at hM; exact absurd hM (by simp [presentNonBlank])
    | some m =>
      rw [hEB] at hB
      rw [hEM] at hM
      have hbne : b ≠ "" := by simpa [presentNonBlank] using hB
      have hmne : m ≠ "" := by simpa [presentNonBlank] using hM
      cases blob <;> simp [getSettings, getSettingsSeasonal, jsOr, hEB, hEM, hbne, hmne]

/-- Witness for the amended C10 at a build-time configuration that sets
both a base URL and a model. -/
theorem getSettings_agree_when_env_set_witness :
    presentNonBlank (⟨none, some "https://api.example.com", some "gpt-4o"⟩ : EnvConfig).baseUrl = true ∧
    presentNonBlank (⟨none, some "https://api.example.com", some "gpt-4o"⟩ : EnvConfig).model = true ∧
    getSettings ⟨none, some "https://api.example.com", some "gpt-4o"⟩ StoredBlob.absent =
      getSettingsSeasonal ⟨none, some "https://api.example.com", some "gpt-4o"⟩ StoredBlob.absent :=
  ⟨by decide, by decide,
    getSettings_agree_when_env_set ⟨none, some "https://api.example.com", some "gpt-4o"⟩
      StoredBlob.absent (by decide) (by decide)⟩
